import Mathlib

/-!
Shallow embedding of the ChurchSuite → Brevo contact sync (src/api/sync.js).

JavaScript's loosely typed values are modelled as follows: a string-valued
field that may be absent is `Option String` (`none` = `undefined`/`null`),
JS truthiness of such a value is `jsTruthy`, and the JS `||` operator on
such values is `jsOr`.  Machine behaviour that matters to the claims
(retry counting, pagination advancement, attribute cleanup, payload
construction, handler short-circuiting) is translated function by function
from the source.
-/

namespace ChurchSuiteSync

/-- JS truthiness for an optional string: `undefined`, `null` and `""` are
falsy, every other string is truthy. -/
def jsTruthy : Option String → Bool
  | none => false
  | some s => s ≠ ""

/-- JS `a || b` on optional strings: returns `a` when truthy, else `b`. -/
def jsOr (a b : Option String) : Option String :=
  if jsTruthy a then a else b

/-! ## `normalizeChurchSuiteDomain` (src/api/sync.js lines 36–44) -/

/-- The literal suffix appended by the normalizer. -/
def csSuffix : String := ".churchsuite.com"

/-- JS `domain.includes('.churchsuite.com')`, as substring containment on
the underlying character lists. -/
def includesCsSuffix (s : String) : Bool :=
  decide (csSuffix.data <:+: s.data)

/-- The function `normalizeChurchSuiteDomain`: falsy input returned unchanged; if the
domain already contains `.churchsuite.com` it is returned as is; otherwise
the suffix is appended. -/
def normalizeChurchSuiteDomain (domain : Option String) : Option String :=
  if ¬ jsTruthy domain then domain
  else if includesCsSuffix (domain.getD "") then domain
  else some ((domain.getD "") ++ csSuffix)

/-! ## `fetchWithRetry` (src/api/sync.js lines 46–56) -/

/-- What the transport returns for one attempt: either a network-level
error, or an HTTP response with its `ok` flag, status and body text. -/
inductive TransportResult where
  | netErr (msg : String)
  | resp (ok : Bool) (status : Nat) (body : String)
  deriving DecidableEq

/-- Outcome of a single attempt inside `fetchWithRetry`'s `try` block:
a network error is rethrown as is, a non-`ok` response is turned into an
`HTTP <status>: <text>` error, and an `ok` response yields its JSON body. -/
def attemptOnce (transport : Nat → TransportResult) (n : Nat) :
    Except String String :=
  match transport n with
  | .netErr msg => .error msg
  | .resp ok status body =>
      if ok then .ok body else .error ("HTTP " ++ toString status ++ ": " ++ body)

/-- The body of `fetchWithRetry` unrolled over the remaining retry budget, starting at
attempt index `n`.  Returns the final result together with the number of
attempts performed and the number of 1-second pauses taken. -/
def fetchWithRetryAux (transport : Nat → TransportResult) (n retries : Nat) :
    Except String String × Nat × Nat :=
  match attemptOnce transport n with
  | .ok body => (.ok body, 1, 0)
  | .error e =>
      match retries with
      | 0 => (.error e, 1, 0)
      | r + 1 =>
          let rest := fetchWithRetryAux transport (n + 1) r
          (rest.1, rest.2.1 + 1, rest.2.2 + 1)

/-- The call `fetchWithRetry(url, options, retries = 3)`, with the transport
abstracted as a function from the attempt index to its result. -/
def fetchWithRetry (transport : Nat → TransportResult)
    (retries : Nat := 3) : Except String String × Nat × Nat :=
  fetchWithRetryAux transport 0 retries

/-! ## Contact model and `mapContactToBrevo` (src/api/sync.js lines 58–96) -/

/-- One entry of the nested `emails` collection of a source contact. -/
structure EmailEntry where
  address : Option String := none
  is_default : Bool := false
  deriving DecidableEq

/-- A loosely typed ChurchSuite contact: every string field may be absent
(`none`), and the nested `emails` collection may be empty.  Field names
follow the alternate spellings the mapper probes. -/
structure Contact where
  email : Option String := none
  email_address : Option String := none
  emailAddress : Option String := none
  emails : List EmailEntry := []
  first_name : Option String := none
  firstName : Option String := none
  last_name : Option String := none
  lastName : Option String := none
  mobile : Option String := none
  mobile_number : Option String := none
  mobileNumber : Option String := none
  telephone : Option String := none
  phone : Option String := none
  address_line1 : Option String := none
  address_line2 : Option String := none
  address_line3 : Option String := none
  address_line4 : Option String := none
  addressLine1 : Option String := none
  addressLine2 : Option String := none
  addressLine3 : Option String := none
  addressLine4 : Option String := none
  town : Option String := none
  city : Option String := none
  postcode : Option String := none
  postal_code : Option String := none
  postalCode : Option String := none
  country : Option String := none
  date_of_birth : Option String := none
  dateOfBirth : Option String := none
  deriving DecidableEq

/-- The expression `contact?.emails?.find?.(e => e.is_default)?.address`. -/
def findDefaultEmail (es : List EmailEntry) : Option String :=
  match es.find? (fun e => e.is_default) with
  | some e => e.address
  | none => none

/-- The expression `contact?.emails?.[0]?.address`. -/
def firstEmailAddress (es : List EmailEntry) : Option String :=
  match es with
  | [] => none
  | e :: _ => e.address

/-- The five email candidates, in the order the mapper's `||` chain
probes them. -/
def emailCandidates (c : Contact) : List (Option String) :=
  [c.email, c.email_address, c.emailAddress,
   findDefaultEmail c.emails, firstEmailAddress c.emails]

/-- The mapper's email expression: the `||` chain over the candidates. -/
def resolvedEmail (c : Contact) : Option String :=
  jsOr c.email (jsOr c.email_address (jsOr c.emailAddress
    (jsOr (findDefaultEmail c.emails) (firstEmailAddress c.emails))))

/-- First truthy element of a candidate list (what "first non-empty wins"
means in the spec). -/
def firstNonEmpty : List (Option String) → Option String
  | [] => none
  | x :: xs => if jsTruthy x then x else firstNonEmpty xs

/-- A right-nested `||` chain over a candidate list; on the mapper's five
candidates this is definitionally `resolvedEmail`. -/
def jsOrChain : List (Option String) → Option String
  | [] => none
  | [x] => x
  | x :: xs => jsOr x (jsOrChain xs)

/-- The Brevo attribute object.  The key set is fixed by the mapper;
`none` models a key that is absent (either never set to a truthy value or
deleted by the cleanup pass). -/
structure BrevoAttributes where
  FIRSTNAME : Option String := none
  LASTNAME : Option String := none
  SMS : Option String := none
  PHONE : Option String := none
  ADDRESS : Option String := none
  CITY : Option String := none
  ZIPCODE : Option String := none
  COUNTRY : Option String := none
  DATEOFBIRTH : Option String := none
  deriving DecidableEq

/-- The effective address lines, each resolved from its two alternate
spellings by `||`, in line-number order 1–4. -/
def effectiveAddressLines (c : Contact) : List (Option String) :=
  [jsOr c.address_line1 c.addressLine1,
   jsOr c.address_line2 c.addressLine2,
   jsOr c.address_line3 c.addressLine3,
   jsOr c.address_line4 c.addressLine4]

/-- JS `Array.prototype.join(", ")`. -/
def joinComma : List String → String
  | [] => ""
  | [x] => x
  | x :: xs => x ++ ", " ++ joinComma xs

/-- The expression `[line1, line2, line3, line4].filter(Boolean).join(", ")`. -/
def addressJoin (c : Contact) : String :=
  joinComma (((effectiveAddressLines c).filter jsTruthy).map (fun v => v.getD ""))

/-- The attribute object as first built, before the cleanup pass. -/
def rawAttributes (c : Contact) : BrevoAttributes :=
  { FIRSTNAME := jsOr c.first_name c.firstName
    LASTNAME := jsOr c.last_name c.lastName
    SMS := jsOr c.mobile (jsOr c.mobile_number c.mobileNumber)
    PHONE := jsOr c.telephone c.phone
    ADDRESS := some (addressJoin c)
    CITY := jsOr c.town c.city
    ZIPCODE := jsOr c.postcode (jsOr c.postal_code c.postalCode)
    COUNTRY := c.country
    DATEOFBIRTH := jsOr c.date_of_birth c.dateOfBirth }

/-- The cleanup applied to one attribute value: `undefined`, `null` and
`""` values are deleted (become absent). -/
def cleanupAttr (v : Option String) : Option String :=
  match v with
  | some s => if s = "" then none else some s
  | none => none

/-- The cleanup pass over the whole attribute object. -/
def cleanAttributes (a : BrevoAttributes) : BrevoAttributes :=
  { FIRSTNAME := cleanupAttr a.FIRSTNAME
    LASTNAME := cleanupAttr a.LASTNAME
    SMS := cleanupAttr a.SMS
    PHONE := cleanupAttr a.PHONE
    ADDRESS := cleanupAttr a.ADDRESS
    CITY := cleanupAttr a.CITY
    ZIPCODE := cleanupAttr a.ZIPCODE
    COUNTRY := cleanupAttr a.COUNTRY
    DATEOFBIRTH := cleanupAttr a.DATEOFBIRTH }

/-- A mapped contact: non-empty email plus cleaned attributes. -/
structure MappedContact where
  email : String
  attributes : BrevoAttributes
  deriving DecidableEq

/-- The mapper `mapContactToBrevo`: resolve the email by the `||` chain; if it is
falsy return `null` (drop the record); otherwise return the email with
the cleaned attribute object. -/
def mapContactToBrevo (c : Contact) : Option MappedContact :=
  let email := resolvedEmail c
  if jsTruthy email then
    some { email := email.getD "", attributes := cleanAttributes (rawAttributes c) }
  else none

/-! ## Pagination (src/api/sync.js lines 98–137) -/

/-- JS truthiness for an optional number: absent and `0` are falsy. -/
def jsTruthyNat : Option Nat → Bool
  | none => false
  | some n => n ≠ 0

/-- JS `a || b` on optional numbers. -/
def jsOrNat (a b : Option Nat) : Option Nat :=
  if jsTruthyNat a then a else b

/-- The `pagination` object of a page response. -/
structure CsPagination where
  total_pages : Option Nat := none
  next_page : Option Nat := none
  deriving DecidableEq

/-- One page response: `results` plus the two places a next-page pointer
can live (`pagination.next_page` and top-level `next_page`). -/
structure CsResponse where
  results : List Contact := []
  pagination : CsPagination := {}
  next_page : Option Nat := none
  deriving DecidableEq

/-- The loop body's decision to advance to the next page, exactly as in
the code: advance when `totalPages` is truthy and `page < totalPages`;
otherwise advance when `pagination.next_page || response.next_page` is
truthy; otherwise stop (`break`). -/
def shouldAdvance (r : CsResponse) (page : Nat) : Bool :=
  (jsTruthyNat r.pagination.total_pages &&
    decide (page < r.pagination.total_pages.getD 0)) ||
  jsTruthyNat (jsOrNat r.pagination.next_page r.next_page)

/-- Modelled from the spec's words (§4.2), for comparison with
`shouldAdvance`: an ordered first-match-wins policy — (1) if the response
carries a total-page count and the current page is below it, advance;
(2) else if it carries an explicit next-page pointer under either field
name, advance; (3) else stop. -/
def advancePolicySpec (r : CsResponse) (page : Nat) : Bool :=
  if jsTruthyNat r.pagination.total_pages &&
      decide (page < r.pagination.total_pages.getD 0) then true
  else if jsTruthyNat r.pagination.next_page || jsTruthyNat r.next_page then true
  else false

/-- The collector loop of `fetchAllChurchSuiteContacts`, with the page
fetch abstracted as a function from page number to response and an
explicit fuel bound (`none` = the loop did not finish within the fuel).
Returns the accumulated contacts and the number of pages fetched. -/
def fetchAllAux (pages : Nat → CsResponse) (page fuel : Nat) :
    Option (List Contact × Nat) :=
  match fuel with
  | 0 => none
  | f + 1 =>
      let r := pages page
      if shouldAdvance r page then
        match fetchAllAux pages (page + 1) f with
        | none => none
        | some (cs, n) => some (r.results ++ cs, n + 1)
      else some (r.results, 1)

/-- The collector `fetchAllChurchSuiteContacts`: drain pages starting at page 1. -/
def fetchAllChurchSuiteContacts (pages : Nat → CsResponse) (fuel : Nat) :
    Option (List Contact × Nat) :=
  fetchAllAux pages 1 fuel

/-! ## `upsertBrevoContact` payload (src/api/sync.js lines 139–158) -/

/-- The possible shapes of `config.brevoListId` in JSON: absent, an
integer number, or a string (a non-integer number behaves like the
string case for `Number.isInteger`, so it is subsumed by `strVal`). -/
inductive ListIdValue where
  | undef
  | intVal (n : Int)
  | strVal (s : String)
  deriving DecidableEq

/-- The test `Number.isInteger(brevoListId) && brevoListId > 0`. -/
def isValidListId : ListIdValue → Bool
  | .intVal n => decide (0 < n)
  | _ => false

/-- The POST body sent to `https://api.brevo.com/v3/contacts`. -/
structure BrevoPayload where
  email : String
  attributes : BrevoAttributes
  updateEnabled : Bool
  listIds : Option (List Int)
  deriving DecidableEq

/-- Payload construction in `upsertBrevoContact`: always email,
attributes and `updateEnabled: true`; `listIds = [brevoListId]` is added
only when the id is an integer greater than zero. -/
def upsertPayload (contact : MappedContact) (brevoListId : ListIdValue) :
    BrevoPayload :=
  let base : BrevoPayload :=
    { email := contact.email, attributes := contact.attributes,
      updateEnabled := true, listIds := none }
  match brevoListId with
  | .intVal n => if 0 < n then { base with listIds := some [n] } else base
  | _ => base

/-! ## Handler (src/api/sync.js lines 161–245) -/

/-- The summary returned on success. -/
structure SyncResult where
  fetched : Nat
  upserted : Nat
  failed : Nat
  errors : List (String × String)
  deriving DecidableEq

/-- The per-record upsert loop: each mapped contact is upserted; a
success increments the counter, a failure appends `(email, message)` to
the failure list and the loop continues. -/
def upsertLoop (mapped : List MappedContact)
    (upsert : MappedContact → Except String Unit) :
    Nat × List (String × String) :=
  mapped.foldl (fun acc m =>
    match upsert m with
    | .ok _ => (acc.1 + 1, acc.2)
    | .error e => (acc.1, acc.2 ++ [(m.email, e)])) (0, [])

/-- The handler's post-fetch phase: map, drop `null`s, upsert one by one,
and build the summary (`errors` capped at 10 entries). -/
def runSync (fetched : List Contact)
    (upsert : MappedContact → Except String Unit) : SyncResult :=
  let mapped := fetched.filterMap mapContactToBrevo
  let r := upsertLoop mapped upsert
  { fetched := fetched.length, upserted := r.1,
    failed := r.2.length, errors := r.2.take 10 }

/-- The JSON body of the handler's HTTP response: either the success
summary or a structured `{ ok: false, error }` object. -/
inductive HandlerResponse where
  | success (r : SyncResult)
  | configError (error : String)
  deriving DecidableEq

/-- The handler: validate domain and both API keys in order, failing
fast with a structured error and zero network calls; then fetch all
pages, map and upsert.  The second component counts network calls
(page fetches plus one upsert call per mapped contact); `none` models the
page loop not finishing within the fuel. -/
def handlerModel (domain csKey brevoKey : Option String)
    (pages : Nat → CsResponse) (fuel : Nat)
    (upsert : MappedContact → Except String Unit) :
    Option (HandlerResponse × Nat) :=
  if ¬ jsTruthy domain ∨ domain = some "CHANGE_ME" then
    some (.configError "CHURCHSUITE_DOMAIN not configured. Set CHURCHSUITE_DOMAIN environment variable or ensure config.json is accessible.", 0)
  else if ¬ jsTruthy csKey then
    some (.configError "CHURCHSUITE_API_KEY environment variable is not set", 0)
  else if ¬ jsTruthy brevoKey then
    some (.configError "BREVO_API_KEY environment variable is not set", 0)
  else
    match fetchAllChurchSuiteContacts pages fuel with
    | none => none
    | some (contacts, pageCalls) =>
        some (.success (runSync contacts upsert),
          pageCalls + (contacts.filterMap mapContactToBrevo).length)

/-! ## Concrete fixtures used by the witnesses -/

/-- A transport that fails with a network error on attempts 0 and 1 and
returns a 200 with body `{}` from attempt 2 on. -/
def tFailTwice : Nat → TransportResult := fun n =>
  if n < 2 then .netErr "boom" else .resp true 200 "\x7b\x7d"

/-- A transport that answers HTTP 500 on every attempt, with the attempt
index as body so the propagated failure is identifiable. -/
def tAlwaysFail : Nat → TransportResult := fun n =>
  .resp false 500 (toString n)

/-- A contact with a valid direct email. -/
def contactAlice : Contact :=
  { email := some "alice@example.com", first_name := some "Alice" }

/-- A second contact with a valid direct email. -/
def contactBob : Contact :=
  { email := some "bob@example.com" }

/-- A contact with no resolvable email under any alternate field. -/
def contactNoEmail : Contact :=
  { first_name := some "Carol", emails := [{ address := some "" }] }

/-- A contact whose first truthy email candidate is the third direct
spelling, with a later candidate (the default-flagged nested entry)
deliberately holding a different value. -/
def contactCandidates : Contact :=
  { email := some "", emailAddress := some "c3@example.com",
    emails := [{ address := some "other@example.com", is_default := true }] }

/-- What `mapContactToBrevo` produces for `contactAlice`. -/
def mappedAlice : MappedContact :=
  { email := "alice@example.com", attributes := { FIRSTNAME := some "Alice" } }

/-- What `mapContactToBrevo` produces for `contactBob`. -/
def mappedBob : MappedContact :=
  { email := "bob@example.com", attributes := {} }

/-- A contact with address lines 1 and 3 present (line 3 through the
camelCase spelling), line 2 the empty string and line 4 absent. -/
def contactAddress : Contact :=
  { email := some "addr@example.com", address_line1 := some "1 High St",
    address_line2 := some "", addressLine3 := some "Devon" }

/-- What `mapContactToBrevo` produces for `contactAddress`. -/
def mappedAddress : MappedContact :=
  { email := "addr@example.com",
    attributes := { ADDRESS := some "1 High St, Devon" } }

/-- A contact with only address lines 2 and 4 present (lines 1 and 3
absent), line 4 through the camelCase spelling. -/
def contactAddress24 : Contact :=
  { email := some "addr24@example.com", address_line2 := some "Flat 2",
    addressLine4 := some "EX1 1AA" }

/-- What `mapContactToBrevo` produces for `contactAddress24`. -/
def mappedAddress24 : MappedContact :=
  { email := "addr24@example.com",
    attributes := { ADDRESS := some "Flat 2, EX1 1AA" } }

/-- An upsert oracle that always succeeds. -/
def upsertAlwaysOk : MappedContact → Except String Unit := fun _ => .ok ()

/-- An upsert oracle that fails exactly for Bob's email. -/
def upsertFailBob : MappedContact → Except String Unit := fun m =>
  if m.email = "bob@example.com" then .error "HTTP 400: bad request" else .ok ()

/-- A page oracle whose every page reports `total_pages = 3` and no
next-page pointer (so page 3 of 3 reports no next-page pointer). -/
def pagesTotal3 : Nat → CsResponse := fun _ =>
  { results := [contactAlice], pagination := { total_pages := some 3 } }

end ChurchSuiteSync

namespace ChurchSuiteSync

/-! ## Theorems -/

theorem includes_after_append (d : String) :
    includesCsSuffix (d ++ csSuffix) = true := by
  unfold includesCsSuffix
  apply decide_eq_true
  have h1 : csSuffix.data <:+ (d ++ csSuffix).data := by
    rw [String.data_append]
    exact List.suffix_append d.data csSuffix.data
  exact h1.isInfix

/-- C10: `normalizeChurchSuiteDomain` is idempotent: applying it twice
yields the same result as applying it once, because the
`.churchsuite.com` suffix is appended only when not already contained and
falsy inputs are returned unchanged. -/
theorem fetchWithRetryAux_ok (t : Nat → TransportResult) (n r : Nat)
    (b : String) (h : attemptOnce t n = .ok b) :
    fetchWithRetryAux t n r = (.ok b, 1, 0) := by
  cases r <;> (rw [fetchWithRetryAux, h])

theorem fetchWithRetryAux_err_zero (t : Nat → TransportResult) (n : Nat)
    (e : String) (h : attemptOnce t n = .error e) :
    fetchWithRetryAux t n 0 = (.error e, 1, 0) := by
  rw [fetchWithRetryAux, h]

theorem fetchWithRetryAux_err_succ (t : Nat → TransportResult) (n r : Nat)
    (e : String) (h : attemptOnce t n = .error e) :
    fetchWithRetryAux t n (r + 1) =
      ((fetchWithRetryAux t (n + 1) r).1,
       (fetchWithRetryAux t (n + 1) r).2.1 + 1,
       (fetchWithRetryAux t (n + 1) r).2.2 + 1) := by
  rw [fetchWithRetryAux, h]

/-- C1: with the default retry budget of 3, a transport failing on
attempts 0 and 1 and succeeding on attempt 2 makes the call succeed
after 3 attempts and 2 pauses; a transport failing on all of attempts
0–3 makes the call fail after exactly 4 attempts (initial + 3 retries)
with the failure of the last attempt; and a non-2xx response is turned
into a failure carrying `HTTP <status>: <text>`, just like a network
error. -/
theorem fetchWithRetry_default_budget :
    (∀ (t : Nat → TransportResult) (e0 e1 b : String),
        attemptOnce t 0 = .error e0 →
        attemptOnce t 1 = .error e1 →
        attemptOnce t 2 = .ok b →
        fetchWithRetry t = (.ok b, 3, 2)) ∧
    (∀ (t : Nat → TransportResult) (e0 e1 e2 e3 : String),
        attemptOnce t 0 = .error e0 →
        attemptOnce t 1 = .error e1 →
        attemptOnce t 2 = .error e2 →
        attemptOnce t 3 = .error e3 →
        fetchWithRetry t = (.error e3, 4, 3)) ∧
    (∀ (t : Nat → TransportResult) (n status : Nat) (body : String),
        t n = .resp false status body →
        attemptOnce t n = .error ("HTTP " ++ toString status ++ ": " ++ body)) := by
  refine ⟨?_, ?_, ?_⟩
  · intro t e0 e1 b h0 h1 h2
    show fetchWithRetryAux t 0 3 = (.ok b, 3, 2)
    rw [show (3 : Nat) = 2 + 1 from rfl, fetchWithRetryAux_err_succ t 0 2 e0 h0,
      show (2 : Nat) = 1 + 1 from rfl, fetchWithRetryAux_err_succ t 1 1 e1 h1,
      fetchWithRetryAux_ok t 2 1 b h2]
  · intro t e0 e1 e2 e3 h0 h1 h2 h3
    show fetchWithRetryAux t 0 3 = (.error e3, 4, 3)
    rw [show (3 : Nat) = 2 + 1 from rfl, fetchWithRetryAux_err_succ t 0 2 e0 h0,
      show (2 : Nat) = 1 + 1 from rfl, fetchWithRetryAux_err_succ t 1 1 e1 h1,
      show (1 : Nat) = 0 + 1 from rfl, fetchWithRetryAux_err_succ t 2 0 e2 h2,
      fetchWithRetryAux_err_zero t 3 e3 h3]
  · intro t n status body h
    simp [attemptOnce, h]

/-- Witness for C1 at the two concrete transports. -/
theorem fetchWithRetry_default_budget_witness :
    fetchWithRetry tFailTwice = (.ok "\x7b\x7d", 3, 2) ∧
    fetchWithRetry tAlwaysFail = (.error "HTTP 500: 3", 4, 3) ∧
    attemptOnce tAlwaysFail 0 = .error "HTTP 500: 0" :=
  ⟨fetchWithRetry_default_budget.1 tFailTwice "boom" "boom" "\x7b\x7d" rfl rfl rfl,
   fetchWithRetry_default_budget.2.1 tAlwaysFail
     "HTTP 500: 0" "HTTP 500: 1" "HTTP 500: 2" "HTTP 500: 3" rfl rfl rfl rfl,
   fetchWithRetry_default_budget.2.2 tAlwaysFail 0 500 "0" rfl⟩

theorem normalizeChurchSuiteDomain_idempotent (d : Option String) :
    normalizeChurchSuiteDomain (normalizeChurchSuiteDomain d) =
      normalizeChurchSuiteDomain d := by
  cases d with
  | none => simp [normalizeChurchSuiteDomain, jsTruthy]
  | some s =>
      by_cases hs : s = ""
      · subst hs; simp [normalizeChurchSuiteDomain, jsTruthy]
      · by_cases hinc : includesCsSuffix s = true
        · have h1 : normalizeChurchSuiteDomain (some s) = some s := by
            simp [normalizeChurchSuiteDomain, jsTruthy, hs, hinc]
          rw [h1, h1]
        · have h1 : normalizeChurchSuiteDomain (some s) = some (s ++ csSuffix) := by
            simp [normalizeChurchSuiteDomain, jsTruthy, hs, hinc]
          have hne : s ++ csSuffix ≠ "" := by
            intro he
            have hl := congrArg String.length he
            rw [String.length_append] at hl
            have h16 : csSuffix.length = 16 := rfl
            have h0 : ("" : String).length = 0 := rfl
            omega
          have h2 : normalizeChurchSuiteDomain (some (s ++ csSuffix)) =
              some (s ++ csSuffix) := by
            simp [normalizeChurchSuiteDomain, jsTruthy, hne, includes_after_append]
          rw [h1, h2]

theorem jsTruthyNat_jsOrNat (a b : Option Nat) :
    jsTruthyNat (jsOrNat a b) = (jsTruthyNat a || jsTruthyNat b) := by
  unfold jsOrNat
  cases ha : jsTruthyNat a <;> simp [ha]

/-- C2: the loop's advancement decision coincides, for every response and
page number, with the spec's ordered first-match-wins policy (total-page
count with current page below it, else a next-page pointer under either
field name, else stop); and on the concrete oracle whose pages all report
`total_pages = 3` with no next-page pointer the collector fetches exactly
3 pages and terminates. -/
theorem shouldAdvance_policy_and_termination :
    (∀ (r : CsResponse) (page : Nat),
        shouldAdvance r page = advancePolicySpec r page) ∧
    fetchAllChurchSuiteContacts pagesTotal3 5 =
      some ([contactAlice, contactAlice, contactAlice], 3) := by
  constructor
  · intro r page
    unfold shouldAdvance advancePolicySpec
    rw [jsTruthyNat_jsOrNat]
    cases hA : (jsTruthyNat r.pagination.total_pages &&
        decide (page < r.pagination.total_pages.getD 0)) <;>
      cases hB : (jsTruthyNat r.pagination.next_page || jsTruthyNat r.next_page) <;>
        simp [hA, hB]
  · rfl

theorem firstNonEmpty_jsOrChain (l : List (Option String)) (s : String)
    (h : firstNonEmpty l = some s) : jsOrChain l = some s ∧ s ≠ "" := by
  induction l with
  | nil => simp [firstNonEmpty] at h
  | cons x xs ih =>
      by_cases hx : jsTruthy x = true
      · have hxs : x = some s := by
          unfold firstNonEmpty at h
          rwa [if_pos hx] at h
        have hs : s ≠ "" := by
          rw [hxs] at hx
          simpa [jsTruthy] using hx
        refine ⟨?_, hs⟩
        cases xs with
        | nil => rw [jsOrChain]; exact hxs
        | cons y ys =>
            rw [jsOrChain, jsOr, if_pos hx]
            · exact hxs
            · simp
      · have h' : firstNonEmpty xs = some s := by
          unfold firstNonEmpty at h
          rwa [if_neg hx] at h
        obtain ⟨hchain, hs⟩ := ih h'
        refine ⟨?_, hs⟩
        cases xs with
        | nil => simp [firstNonEmpty] at h'
        | cons y ys =>
            rw [jsOrChain, jsOr, if_neg hx]
            · exact hchain
            · simp

/-- C3: whenever the first truthy candidate — in the order direct `email`,
`email_address`, `emailAddress`, default-flagged nested entry, first
nested entry — is `s`, the mapper accepts the contact and the mapped
email is exactly `s`, whatever the later candidates hold. -/
theorem mapContactToBrevo_email_resolution (c : Contact) (s : String)
    (h : firstNonEmpty (emailCandidates c) = some s) :
    Option.map MappedContact.email (mapContactToBrevo c) = some s := by
  obtain ⟨hchain, hs⟩ := firstNonEmpty_jsOrChain (emailCandidates c) s h
  have hres : resolvedEmail c = some s := hchain
  have ht : jsTruthy (resolvedEmail c) = true := by
    rw [hres]; simpa [jsTruthy] using hs
  simp [mapContactToBrevo, hres, ht, jsTruthy, hs]

/-- Witness for C3 at a contact whose first truthy candidate is the
third direct spelling while a later candidate holds a different value. -/
theorem mapContactToBrevo_email_resolution_witness :
    firstNonEmpty (emailCandidates contactCandidates) = some "c3@example.com" ∧
    Option.map MappedContact.email (mapContactToBrevo contactCandidates) =
      some "c3@example.com" :=
  ⟨by decide,
   mapContactToBrevo_email_resolution contactCandidates "c3@example.com" (by decide)⟩

/-- C4: a source record none of whose email candidates is truthy is
mapped to `null` (dropped); and in the end-to-end run over Alice (valid
email) and a contact with no resolvable email, with every upsert
succeeding, the summary is `fetched = 2`, `upserted = 1`, `failed = 0`
and the dropped contact appears nowhere in `errors`. -/
theorem dropped_contact_never_counted :
    (∀ c : Contact, (∀ x ∈ emailCandidates c, jsTruthy x = false) →
        mapContactToBrevo c = none) ∧
    runSync [contactAlice, contactNoEmail] upsertAlwaysOk =
      { fetched := 2, upserted := 1, failed := 0, errors := [] } := by
  constructor
  · intro c hall
    have h1 := hall c.email (by simp [emailCandidates])
    have h2 := hall c.email_address (by simp [emailCandidates])
    have h3 := hall c.emailAddress (by simp [emailCandidates])
    have h4 := hall (findDefaultEmail c.emails) (by simp [emailCandidates])
    have h5 := hall (firstEmailAddress c.emails) (by simp [emailCandidates])
    have hres : jsTruthy (resolvedEmail c) = false := by
      unfold resolvedEmail
      simp [jsOr, h1, h2, h3, h4, h5]
    simp [mapContactToBrevo, hres]
  · rfl

/-- Witness for C4: the concrete email-less contact is dropped, and the
concrete two-contact run yields the claimed summary. -/
theorem dropped_contact_never_counted_witness :
    mapContactToBrevo contactNoEmail = none ∧
    runSync [contactAlice, contactNoEmail] upsertAlwaysOk =
      { fetched := 2, upserted := 1, failed := 0, errors := [] } :=
  ⟨dropped_contact_never_counted.1 contactNoEmail (by decide),
   dropped_contact_never_counted.2⟩

theorem cleanupAttr_ne_blank (v : Option String) : cleanupAttr v ≠ some "" := by
  cases v with
  | none => simp [cleanupAttr]
  | some s =>
      by_cases hs : s = "" <;> simp [cleanupAttr, hs]

/-- No attribute of a cleaned attribute object holds the empty string. -/
def noBlankValues (a : BrevoAttributes) : Prop :=
  a.FIRSTNAME ≠ some "" ∧ a.LASTNAME ≠ some "" ∧ a.SMS ≠ some "" ∧
  a.PHONE ≠ some "" ∧ a.ADDRESS ≠ some "" ∧ a.CITY ≠ some "" ∧
  a.ZIPCODE ≠ some "" ∧ a.COUNTRY ≠ some "" ∧ a.DATEOFBIRTH ≠ some ""

theorem noBlankValues_cleanAttributes (a : BrevoAttributes) :
    noBlankValues (cleanAttributes a) :=
  ⟨cleanupAttr_ne_blank _, cleanupAttr_ne_blank _, cleanupAttr_ne_blank _,
   cleanupAttr_ne_blank _, cleanupAttr_ne_blank _, cleanupAttr_ne_blank _,
   cleanupAttr_ne_blank _, cleanupAttr_ne_blank _, cleanupAttr_ne_blank _⟩

/-- C5: every contact the mapper accepts carries an attribute object in
which no key holds the empty string — an attribute that would be empty,
null or absent is `none`, i.e. removed from the object, never a blank
value. -/
theorem mapped_attributes_never_blank (c : Contact) (m : MappedContact)
    (h : mapContactToBrevo c = some m) : noBlankValues m.attributes := by
  by_cases ht : jsTruthy (resolvedEmail c) = true
  · have hm : m.attributes = cleanAttributes (rawAttributes c) := by
      simp [mapContactToBrevo, ht] at h
      rw [← h]
    rw [hm]
    exact noBlankValues_cleanAttributes _
  · simp [mapContactToBrevo, ht] at h

/-- Witness for C5 at Alice's mapped record. -/
theorem mapped_attributes_never_blank_witness :
    noBlankValues mappedAlice.attributes :=
  mapped_attributes_never_blank contactAlice mappedAlice (by decide)

theorem joinComma_ne_empty (ls : List String) (h : ls ≠ [])
    (hall : ∀ x ∈ ls, x ≠ "") : joinComma ls ≠ "" := by
  cases ls with
  | nil => exact absurd rfl h
  | cons x xs =>
      cases xs with
      | nil => exact hall x (by simp)
      | cons y ys =>
          intro he
          have hl := congrArg String.length he
          rw [show joinComma (x :: y :: ys) = x ++ ", " ++ joinComma (y :: ys)
            from rfl] at hl
          rw [String.length_append, String.length_append] at hl
          have hc : (", ").length = 2 := rfl
          have h0 : ("" : String).length = 0 := rfl
          omega

/-- C6: for every accepted contact with at least one address line
present, the mapped `ADDRESS` attribute is exactly the present effective
lines (lines 1–4, each resolved from its two alternate spellings),
in line-number order, joined with `", "` — empty or absent lines are
filtered out before the join, so they leave no positional gap.  In
particular lines 1 and 3 present with 2 and 4 empty yields
`line1 ++ ", " ++ line3`. -/
theorem address_joins_present_lines (c : Contact) (m : MappedContact)
    (ls : List String)
    (hm : mapContactToBrevo c = some m)
    (hls : ((effectiveAddressLines c).filter jsTruthy).map
        (fun v => v.getD "") = ls)
    (hne : ls ≠ []) :
    m.attributes.ADDRESS = some (joinComma ls) := by
  have hall : ∀ x ∈ ls, x ≠ "" := by
    rw [← hls]
    intro x hx
    rcases List.mem_map.mp hx with ⟨v, hv, hvx⟩
    have hvt : jsTruthy v = true := (List.mem_filter.mp hv).2
    cases v with
    | none => simp [jsTruthy] at hvt
    | some s =>
        rw [← hvx]
        simpa [jsTruthy] using hvt
  have hjoin : addressJoin c = joinComma ls := by
    unfold addressJoin
    rw [hls]
  have hjoin_ne : joinComma ls ≠ "" := joinComma_ne_empty ls hne hall
  by_cases ht : jsTruthy (resolvedEmail c) = true
  · have hattrs : m.attributes = cleanAttributes (rawAttributes c) := by
      simp [mapContactToBrevo, ht] at hm
      rw [← hm]
    rw [hattrs]
    show cleanupAttr (rawAttributes c).ADDRESS = some (joinComma ls)
    have hra : (rawAttributes c).ADDRESS = some (addressJoin c) := rfl
    rw [hra, hjoin, cleanupAttr, if_neg hjoin_ne]
  · simp [mapContactToBrevo, ht] at hm

/-- Witness for C6 at two configurations: lines 1 and 3 present with
line 2 the empty string and line 4 absent, and lines 2 and 4 present
with lines 1 and 3 absent. -/
theorem address_joins_present_lines_witness :
    mappedAddress.attributes.ADDRESS = some (joinComma ["1 High St", "Devon"]) ∧
    mappedAddress24.attributes.ADDRESS =
      some (joinComma ["Flat 2", "EX1 1AA"]) :=
  ⟨address_joins_present_lines contactAddress mappedAddress
      ["1 High St", "Devon"] (by decide) (by decide) (by decide),
   address_joins_present_lines contactAddress24 mappedAddress24
      ["Flat 2", "EX1 1AA"] (by decide) (by decide) (by decide)⟩

/-- C7: when of two mapped contacts one's upsert fails and the other's
succeeds — in either order — the sync continues rather than aborting:
the summary has `upserted = 1`, `failed = 1`, and `errors` is exactly the
one pair of the failing contact's email and the error message.  The
failure-first case shows the loop proceeds past a failure: the later
contact is still upserted. -/
theorem upsert_failure_isolated (c1 c2 : Contact) (m1 m2 : MappedContact)
    (e : String) (upsert : MappedContact → Except String Unit)
    (h1 : mapContactToBrevo c1 = some m1)
    (h2 : mapContactToBrevo c2 = some m2) :
    (upsert m1 = .ok () → upsert m2 = .error e →
      runSync [c1, c2] upsert =
        { fetched := 2, upserted := 1, failed := 1,
          errors := [(m2.email, e)] }) ∧
    (upsert m1 = .error e → upsert m2 = .ok () →
      runSync [c1, c2] upsert =
        { fetched := 2, upserted := 1, failed := 1,
          errors := [(m1.email, e)] }) := by
  constructor
  · intro hu1 hu2
    unfold runSync upsertLoop
    simp [List.filterMap, h1, h2, List.foldl, hu1, hu2]
  · intro hu1 hu2
    unfold runSync upsertLoop
    simp [List.filterMap, h1, h2, List.foldl, hu1, hu2]

/-- Witness for C7 in both orders: with Bob's upsert failing with
`HTTP 400: bad request` and Alice's succeeding, the run with Bob first
still upserts Alice (`upserted = 1`), and the run with Bob last records
the same summary; `errors` is exactly Bob's email with that message. -/
theorem upsert_failure_isolated_witness :
    runSync [contactBob, contactAlice] upsertFailBob =
      { fetched := 2, upserted := 1, failed := 1,
        errors := [("bob@example.com", "HTTP 400: bad request")] } ∧
    runSync [contactAlice, contactBob] upsertFailBob =
      { fetched := 2, upserted := 1, failed := 1,
        errors := [("bob@example.com", "HTTP 400: bad request")] } :=
  ⟨(upsert_failure_isolated contactBob contactAlice mappedBob mappedAlice
      "HTTP 400: bad request" upsertFailBob (by decide) (by decide)).2 rfl rfl,
   (upsert_failure_isolated contactAlice contactBob mappedAlice mappedBob
      "HTTP 400: bad request" upsertFailBob (by decide) (by decide)).1 rfl rfl⟩

/-- C8: every upsert payload carries the contact's email, its attributes
and `updateEnabled: true`; `listIds = [id]` is present exactly when the
supplied list identifier is an integer greater than zero, and otherwise
`listIds` is absent. -/
theorem upsertPayload_listIds (m : MappedContact) (v : ListIdValue) :
    (upsertPayload m v).email = m.email ∧
    (upsertPayload m v).attributes = m.attributes ∧
    (upsertPayload m v).updateEnabled = true ∧
    ((∃ n : Int, 0 < n ∧ v = .intVal n ∧ (upsertPayload m v).listIds = some [n]) ∨
      (isValidListId v = false ∧ (upsertPayload m v).listIds = none)) := by
  cases v with
  | undef => exact ⟨rfl, rfl, rfl, Or.inr ⟨rfl, rfl⟩⟩
  | strVal s => exact ⟨rfl, rfl, rfl, Or.inr ⟨rfl, rfl⟩⟩
  | intVal n =>
      by_cases hn : 0 < n
      · refine ⟨?_, ?_, ?_, Or.inl ⟨n, hn, rfl, ?_⟩⟩ <;>
          simp [upsertPayload, hn]
      · refine ⟨?_, ?_, ?_, Or.inr ⟨?_, ?_⟩⟩ <;>
          simp [upsertPayload, isValidListId, hn]

/-- C9: when the domain is falsy or the placeholder `CHANGE_ME`, or either
API key is falsy, the handler returns a structured configuration-error
response and makes zero network calls. -/
theorem handler_config_fail_fast (domain csKey brevoKey : Option String)
    (pages : Nat → CsResponse) (fuel : Nat)
    (upsert : MappedContact → Except String Unit)
    (h : jsTruthy domain = false ∨ domain = some "CHANGE_ME" ∨
         jsTruthy csKey = false ∨ jsTruthy brevoKey = false) :
    ∃ msg, handlerModel domain csKey brevoKey pages fuel upsert =
      some (.configError msg, 0) := by
  unfold handlerModel
  by_cases hd : ¬ jsTruthy domain = true ∨ domain = some "CHANGE_ME"
  · rw [if_pos hd]; exact ⟨_, rfl⟩
  · rw [if_neg hd]
    by_cases hc : ¬ jsTruthy csKey = true
    · rw [if_pos hc]; exact ⟨_, rfl⟩
    · rw [if_neg hc]
      by_cases hb : ¬ jsTruthy brevoKey = true
      · rw [if_pos hb]; exact ⟨_, rfl⟩
      · exfalso
        rcases h with h | h | h | h
        · exact hd (Or.inl (by simp [h]))
        · exact hd (Or.inr h)
        · exact hc (by simp [h])
        · exact hb (by simp [h])

/-- Witness for C9: with no domain configured the handler answers with a
configuration error and zero network calls. -/
theorem handler_config_fail_fast_witness :
    ∃ msg, handlerModel none (some "cs-key") (some "brevo-key")
      pagesTotal3 5 upsertAlwaysOk = some (.configError msg, 0) :=
  handler_config_fail_fast none (some "cs-key") (some "brevo-key")
    pagesTotal3 5 upsertAlwaysOk (Or.inl rfl)

end ChurchSuiteSync
